import Mathlib

/-! Verification development for the `navarii-worker` notification worker
(`worker/main.py`, `worker/sendgrid_adapter.py`, `worker/config.py`,
`worker/supabase_client.py`).

The Python code is shallowly embedded as executable Lean definitions:

* Pure formatting helpers (`_format_currency`, `_format_date`, `_format_time`,
  `_format_time_range`, `_format_duration`, `_format_short_date`,
  `_make_calendar_link`, `_make_directions_url`) become pure Lean functions.
  Python's `datetime.fromisoformat` (an external library routine) is
  abstracted as a parameter `parse : String → Option DT`; every helper that
  parses a timestamp takes it explicitly, and the `try/except` blocks of the
  source become `Option` matches on the parse result.
* Python float division of cents by 100 followed by two-decimal formatting is
  modelled as exact decimal rendering of the integer cents split at two
  decimal places; for an integer number of cents this coincides with
  CPython's float formatting throughout the representable money range.
* Database rows become structures whose nullable columns are `Option` fields;
  the Supabase client becomes a `Db` record of table contents; `maybe_single`
  point lookups become `List.find?`, and the one ordered query
  (`offering_locations` ordered by `stop_order`, limit 1) becomes a stable
  insertion sort followed by `head?`.
* Numeric `latitude` / `longitude` columns (Python floats) are modelled as
  rationals; Python truthiness of a possibly-missing value is modelled
  explicitly (`none`, zero and the empty string are falsy).
* The job handlers become functions from an environment (`Env`: settings, the
  database snapshot, the provider's response to this send, whether the
  delivery-log insert raises, and the current time) to a `HandlerResult`
  recording the outcome (normal return or raised error), the list of external
  side effects performed, and the resulting database state.
-/

/-! Python value helpers. -/

/-- Truthiness of a possibly-`None` Python string: `None` and the empty
string are falsy. -/
def truthyS : Option String → Bool
  | none => false
  | some s => s ≠ ""

/-- Python `x or default` for a possibly-`None` string `x`. -/
def pyOr (x : Option String) (default : String) : String :=
  match x with
  | none => default
  | some s => if s = "" then default else s

/-- Python `x or y` for two possibly-`None` strings (used for
`loc_address or loc_name`). -/
def pyOrOpt (x y : Option String) : Option String :=
  if truthyS x then x else y

/-- Truthiness of a possibly-`None` Python float (modelled as `ℚ`):
`None` and `0.0` are falsy. -/
def truthyQ : Option ℚ → Bool
  | none => false
  | some q => q ≠ 0

/-- Python `str.upper`, restricted to the ASCII mapping of `Char.toUpper`
(the currency codes and booking ids concerned are ASCII). -/
def pyUpper (s : String) : String := String.mk (s.data.map Char.toUpper)

/-- Python string slice of the first `n` characters. -/
def pyTake (n : Nat) (s : String) : String := String.mk (s.data.take n)

/-! Currency formatting: `_format_currency`, main.py lines 28-31. -/

/-- Two-digit zero-padded rendering of a natural number below 100. -/
def pad2 (n : Nat) : String := if n < 10 then "0" ++ toString n else toString n

/-- Exact decimal rendering of a nonnegative number of cents with two
decimal places. -/
def centsTwoDec (n : Nat) : String := toString (n / 100) ++ "." ++ pad2 (n % 100)

/-- Exact decimal rendering of cents divided by 100 with two decimal
places, signed: the embedding of the Python format expression dividing
`cents` by 100 and formatting the float with two decimals. -/
def twoDec (cents : Int) : String :=
  if cents < 0 then "-" ++ centsTwoDec cents.natAbs else centsTwoDec cents.toNat

/-- Python `_format_currency`: symbol table lookup on the upper-cased code
with default dollar sign, then the two-decimal amount. -/
def _format_currency (cents : Int) (currency : String) : String :=
  let symbols : List (String × String) := [("USD", "$"), ("EUR", "€"), ("GBP", "£")]
  let symbol := (symbols.lookup (pyUpper currency)).getD ("$")
  symbol ++ twoDec cents

/-! Datetime model.  Python `datetime.fromisoformat` produces an (optionally
timezone-aware) civil datetime; the embedding keeps the civil fields plus
the UTC offset, and derives the absolute time (seconds since the Unix
epoch) with the standard days-from-civil conversion. -/

/-- A parsed datetime: civil fields plus UTC offset in minutes. -/
structure DT where
  year : Int
  month : Nat
  day : Nat
  hour : Nat
  minute : Nat
  second : Nat
  offsetMinutes : Int
  deriving DecidableEq

/-- Days since 1970-01-01 of a civil date (proleptic Gregorian). -/
def daysFromCivil (y : Int) (m d : Nat) : Int :=
  let y' : Int := if m ≤ 2 then y - 1 else y
  let era : Int := Int.fdiv y' 400
  let yoe : Nat := (y' - era * 400).toNat
  let mp : Nat := if 2 < m then m - 3 else m + 9
  let doy : Nat := (153 * mp + 2) / 5 + d - 1
  let doe : Nat := yoe * 365 + yoe / 4 - yoe / 100 + doy
  era * 146097 + (doe : Int) - 719468

/-- Civil date of a day count since 1970-01-01 (inverse of
`daysFromCivil`). -/
def civilFromDays (z : Int) : Int × Nat × Nat :=
  let z' : Int := z + 719468
  let era : Int := Int.fdiv z' 146097
  let doe : Nat := (z' - era * 146097).toNat
  let yoe : Nat := (doe - doe / 1460 + doe / 36524 - doe / 146097) / 365
  let doy : Nat := doe - (365 * yoe + yoe / 4 - yoe / 100)
  let mp : Nat := (5 * doy + 2) / 153
  let d : Nat := doy - (153 * mp + 2) / 5 + 1
  let m : Nat := if mp < 10 then mp + 3 else mp - 9
  let y : Int := (yoe : Int) + era * 400
  (if m ≤ 2 then y + 1 else y, m, d)

/-- Absolute time of a datetime: seconds since the Unix epoch. -/
def DT.totalSeconds (dt : DT) : Int :=
  daysFromCivil dt.year dt.month dt.day * 86400
    + (dt.hour * 3600 + dt.minute * 60 + dt.second : Nat)
    - dt.offsetMinutes * 60

/-- Weekday names for the strftime weekday directive, indexed from Thursday
(day 0 = 1970-01-01). -/
def weekdayNames : List String :=
  ["Thursday", "Friday", "Saturday", "Sunday", "Monday", "Tuesday", "Wednesday"]

/-- Weekday name of a datetime's civil date. -/
def DT.weekdayName (dt : DT) : String :=
  weekdayNames.getD ((Int.emod (daysFromCivil dt.year dt.month dt.day) 7).toNat) ""

/-- Month names for the strftime full-month directive. -/
def monthNames : List String :=
  ["January", "February", "March", "April", "May", "June", "July",
   "August", "September", "October", "November", "December"]

/-- Month abbreviations for the strftime short-month directive. -/
def monthAbbrevs : List String :=
  ["Jan", "Feb", "Mar", "Apr", "May", "Jun", "Jul", "Aug", "Sep", "Oct", "Nov", "Dec"]

/-- The behaviour of `_parse_dt` is a parameter of the embedding: which
strings `datetime.fromisoformat` accepts is a property of the CPython
library, not of this repository.  `none` models a raised `ValueError`. -/
abbrev ParseFn := String → Option DT

/-! Date and time formatting helpers, main.py lines 38-102. -/

/-- Python `_format_date` (long date, docstring example
'Saturday, February 22, 2026'); echoes the raw input back when parsing
fails. -/
def _format_date (parse : ParseFn) (dt_str : String) : String :=
  match parse dt_str with
  | some dt =>
    dt.weekdayName ++ ", " ++ monthNames.getD (dt.month - 1) "" ++ " "
      ++ toString dt.day ++ ", " ++ toString dt.year
  | none => dt_str

/-- Python `_format_time` (12-hour clock, docstring example '10:00 AM');
empty string when parsing fails. -/
def _format_time (parse : ParseFn) (dt_str : String) : String :=
  match parse dt_str with
  | some dt =>
    let h12 := if dt.hour % 12 = 0 then 12 else dt.hour % 12
    let ampm := if dt.hour < 12 then "AM" else "PM"
    toString h12 ++ ":" ++ pad2 dt.minute ++ " " ++ ampm
  | none => ""

/-- Python `_format_time_range`: the two formatted times joined by an
en-dash, degrading to whichever side formatted non-empty. -/
def _format_time_range (parse : ParseFn) (start_str end_str : String) : String :=
  let s := _format_time parse start_str
  let e := _format_time parse end_str
  if s ≠ "" ∧ e ≠ "" then s ++ " – " ++ e
  else if s ≠ "" then s else if e ≠ "" then e else ""

/-- Python `_format_duration`: the difference in whole minutes rendered as
hours and minutes.  Python `int` conversion of the float minute count
truncates toward zero (`Int.tdiv`); `divmod` is floor division (that branch
is only reached with at least 60 minutes, where both agree); empty string
when parsing fails. -/
def _format_duration (parse : ParseFn) (start_str end_str : String) : String :=
  match parse end_str, parse start_str with
  | some de, some ds =>
    let total_min : Int := Int.tdiv (de.totalSeconds - ds.totalSeconds) 60
    if total_min < 60 then toString total_min ++ "min"
    else
      let h := Int.fdiv total_min 60
      let m := Int.fmod total_min 60
      if m ≠ 0 then toString h ++ "h " ++ toString m ++ "min" else toString h ++ "h"
  | _, _ => ""

/-- Python `_format_short_date` (docstring example 'Feb 17, 2026'); echoes
the raw input back when parsing fails. -/
def _format_short_date (parse : ParseFn) (dt_str : String) : String :=
  match parse dt_str with
  | some dt =>
    monthAbbrevs.getD (dt.month - 1) "" ++ " " ++ toString dt.day ++ ", " ++ toString dt.year
  | none => dt_str

/-! URL helpers, main.py lines 84-102. -/

/-- Hex digit for percent-encoding (upper case, as `urllib.parse.quote`
produces). -/
def hexDigit (n : Nat) : Char := ("0123456789ABCDEF").data.getD n '0'

/-- UTF-8 encoding of one character, as a list of byte values. -/
def utf8Bytes (c : Char) : List Nat :=
  let n := c.toNat
  if n < 128 then [n]
  else if n < 2048 then [192 + n / 64, 128 + n % 64]
  else if n < 65536 then [224 + n / 4096, 128 + (n / 64) % 64, 128 + n % 64]
  else [240 + n / 262144, 128 + (n / 4096) % 64, 128 + (n / 64) % 64, 128 + n % 64]

/-- One byte of `urllib.parse.quote` output: unreserved bytes (letters,
digits, hyphen, dot, underscore, tilde) and the default-safe slash pass
through; every other byte becomes a percent-escape. -/
def quoteByte (n : Nat) : String :=
  if (65 ≤ n ∧ n ≤ 90) ∨ (97 ≤ n ∧ n ≤ 122) ∨ (48 ≤ n ∧ n ≤ 57)
      ∨ n = 45 ∨ n = 46 ∨ n = 95 ∨ n = 126 ∨ n = 47 then
    String.mk [Char.ofNat n]
  else
    String.mk ['%', hexDigit (n / 16), hexDigit (n % 16)]

/-- Python `urllib.parse.quote` with the default safe set. -/
def quote (s : String) : String :=
  String.join (s.data.map (fun c => String.join ((utf8Bytes c).map quoteByte)))

/-- Compact UTC timestamp rendering used inside the calendar link
(year, month, day, letter T, hour, minute, second, letter Z). -/
def calFormat (t : Int) : String :=
  let days := Int.fdiv t 86400
  let secs := (t - days * 86400).toNat
  let ymd := civilFromDays days
  let pad4 := fun (y : Int) =>
    if 0 ≤ y then
      (if y.toNat < 10 then "000" else if y.toNat < 100 then "00"
       else if y.toNat < 1000 then "0" else "") ++ toString y.toNat
    else toString y
  pad4 ymd.1 ++ pad2 ymd.2.1 ++ pad2 ymd.2.2 ++ "T"
    ++ pad2 (secs / 3600) ++ pad2 (secs % 3600 / 60) ++ pad2 (secs % 60) ++ "Z"

/-- Python `_make_calendar_link`.  The caller can pass `None` as the
location (both address and name null); `quote(None)` then raises a
`TypeError` inside the `try`, so the function returns the empty string —
modelled by the `none` branch. -/
def _make_calendar_link (parse : ParseFn) (title start_str end_str : String)
    (location : Option String) : String :=
  match parse start_str, parse end_str with
  | some s, some e =>
    match location with
    | none => ""
    | some loc =>
      let dates := calFormat s.totalSeconds ++ "/" ++ calFormat e.totalSeconds
      "https://calendar.google.com/calendar/render?action=TEMPLATE"
        ++ "&text=" ++ quote title ++ "&dates=" ++ dates ++ "&location=" ++ quote loc
  | _, _ => ""

/-- The coordinate-based directions link: destination rendered from
latitude and longitude.  Numeric rendering of a coordinate is `toString`
on `ℚ`; no claim depends on the digits. -/
def coordinateUrl (lat lng : ℚ) : String :=
  "https://www.google.com/maps/dir/?api=1&destination=" ++ toString lat ++ "," ++ toString lng

/-- The address-based directions link. -/
def addressUrl (address : String) : String :=
  "https://www.google.com/maps/dir/?api=1&destination=" ++ quote address

/-- Python `_make_directions_url`: the coordinate link when latitude and
longitude are both truthy (`None` and `0.0` falsy), else the address link
when the address is truthy (`None` and the empty string falsy), else the
empty string. -/
def _make_directions_url (lat lng : Option ℚ) (address : Option String) : String :=
  if truthyQ lat ∧ truthyQ lng then
    coordinateUrl (lat.getD 0) (lng.getD 0)
  else if truthyS address then addressUrl (address.getD (""))
  else ""

/-! Data model: the tables the worker reads.  Columns that can hold SQL
`NULL` are `Option` fields; `dict.get` on a selected column then yields the
`Option` value, and a `dict.get` default only applies when the whole row
dictionary is absent. -/

/-- A `bookings` row (the columns the worker reads). -/
structure Booking where
  id : String
  seeker_profile_id : String
  provider_profile_id : String
  offering_id : String
  status : String
  amount_cents : Int
  currency : String
  refund_amount_cents : Int
  offering_title : String
  offering_start_datetime : String
  offering_end_datetime : String
  booked_at : String
  confirmation_sent_at : Option String
  reminder_sent_at : Option String
  followup_sent_at : Option String
  deriving DecidableEq

/-- A `seeker_profiles` row. -/
structure SeekerProfile where
  id : String
  user_id : String
  deriving DecidableEq

/-- A `profiles` row. -/
structure Profile where
  user_id : String
  email : Option String
  display_name : Option String
  deriving DecidableEq

/-- A `provider_profiles` row. -/
structure ProviderProfile where
  id : String
  business_name : Option String
  user_id : Option String
  deriving DecidableEq

/-- An `offerings` row (the selected columns). -/
structure Offering where
  id : String
  offering_type : Option String
  image_url : Option String
  provider_location_id : Option String
  deriving DecidableEq

/-- A `provider_locations` row (the selected columns). -/
structure ProviderLocation where
  id : String
  name : Option String
  address_formatted : Option String
  latitude : Option ℚ
  longitude : Option ℚ
  deriving DecidableEq

/-- An `offering_locations` row (the selected columns plus the filter and
order keys). -/
structure OfferingLocation where
  offering_id : String
  stop_order : Int
  venue_name : Option String
  address_formatted : Option String
  latitude : Option ℚ
  longitude : Option ℚ
  deriving DecidableEq

/-- The resolved location dictionary `_get_location` returns (`none` models
the empty dict). -/
structure LocRow where
  name : Option String
  address_formatted : Option String
  latitude : Option ℚ
  longitude : Option ℚ
  deriving DecidableEq

/-- The database snapshot the handlers run against. -/
structure Db where
  bookings : List Booking
  seeker_profiles : List SeekerProfile
  profiles : List Profile
  provider_profiles : List ProviderProfile
  offerings : List Offering
  provider_locations : List ProviderLocation
  offering_locations : List OfferingLocation
  deriving DecidableEq

/-! Database helpers, main.py lines 109-235. -/

/-- Python `_get_booking`: `maybe_single` point lookup. -/
def _get_booking (db : Db) (booking_id : String) : Option Booking :=
  db.bookings.find? (fun b => b.id == booking_id)

/-- Python `_get_seeker_email`: seeker profile, then owning profile, then
its (nullable) email. -/
def _get_seeker_email (db : Db) (booking : Booking) : Option String :=
  match db.seeker_profiles.find? (fun sp => sp.id == booking.seeker_profile_id) with
  | none => none
  | some sp =>
    match db.profiles.find? (fun p => p.user_id == sp.user_id) with
    | none => none
    | some prof => prof.email

/-- Python `_get_seeker_user_id`. -/
def _get_seeker_user_id (db : Db) (booking : Booking) : Option String :=
  match db.seeker_profiles.find? (fun sp => sp.id == booking.seeker_profile_id) with
  | none => none
  | some sp => some sp.user_id

/-- Python `_get_provider_name`: business name, else the owning profile's
display name, else the fixed fallback. -/
def _get_provider_name (db : Db) (booking : Booking) : String :=
  match db.provider_profiles.find? (fun pp => pp.id == booking.provider_profile_id) with
  | none => "Your provider"
  | some pp =>
    let name0 := pp.business_name
    let name :=
      if ¬ truthyS name0 ∧ truthyS pp.user_id then
        match pp.user_id with
        | some uid =>
          match db.profiles.find? (fun p => p.user_id == uid) with
          | none => none
          | some prof => prof.display_name
        | none => name0
      else name0
    pyOr name ("Your provider")

/-- Python `_get_seeker_name`: the seeker profile's display name, else the
fixed fallback. -/
def _get_seeker_name (db : Db) (booking : Booking) : String :=
  match db.seeker_profiles.find? (fun sp => sp.id == booking.seeker_profile_id) with
  | none => "Guest"
  | some sp =>
    match db.profiles.find? (fun p => p.user_id == sp.user_id) with
    | none => "Guest"
    | some prof => pyOr prof.display_name ("Guest")

/-- Python `_get_offering`: `maybe_single` point lookup; `none` models the
empty dict returned when the row is absent. -/
def _get_offering (db : Db) (offering_id : String) : Option Offering :=
  db.offerings.find? (fun o => o.id == offering_id)

/-- Stable insertion into a list sorted by `stop_order` (later elements go
after equal keys). -/
def insertByStop (a : OfferingLocation) : List OfferingLocation → List OfferingLocation
  | [] => [a]
  | b :: l => if b.stop_order ≤ a.stop_order then b :: insertByStop a l else a :: b :: l

/-- Stable sort by `stop_order`, modelling the ordered query. -/
def sortByStop : List OfferingLocation → List OfferingLocation
  | [] => []
  | a :: l => insertByStop a (sortByStop l)

/-- The `offering_locations` query: filter by offering, order by
`stop_order`, limit 1. -/
def firstOfferingLocation (db : Db) (offering_id : String) : Option OfferingLocation :=
  (sortByStop (db.offering_locations.filter (fun l => l.offering_id == offering_id))).head?

/-- The dictionary built from an `offering_locations` row. -/
def olToLocRow (l : OfferingLocation) : LocRow :=
  ⟨l.venue_name, l.address_formatted, l.latitude, l.longitude⟩

/-- Python `_get_location`: try the provider fixed location when a truthy
`provider_location_id` is set and its row exists; otherwise fall back to
the first offering-location ordered by stop order; otherwise the empty
dict. -/
def _get_location (db : Db) (offering : Option Offering) (offering_id : String) :
    Option LocRow :=
  let loc_id : Option String := offering.bind (fun o => o.provider_location_id)
  let fixed : Option LocRow :=
    if truthyS loc_id then
      match db.provider_locations.find? (fun r => r.id == loc_id.getD ("")) with
      | some r => some ⟨r.name, r.address_formatted, r.latitude, r.longitude⟩
      | none => none
    else none
  match fixed with
  | some r => some r
  | none =>
    match firstOfferingLocation db offering_id with
    | some l => some (olToLocRow l)
    | none => none

/-! Template data, main.py lines 242-322. -/

/-- The settings object of `worker/config.py` — the fields the handlers and
builder read. -/
structure Settings where
  NOTIFICATIONS_ENABLED : Bool
  NAVARII_APP_URL : String
  SENDGRID_CONFIRMATION_TEMPLATE_ID : String
  SENDGRID_CANCELLATION_TEMPLATE_ID : String
  SENDGRID_REMINDER_TEMPLATE_ID : String
  SENDGRID_FOLLOWUP_TEMPLATE_ID : String
  deriving DecidableEq

/-- The flat dictionary `_build_template_data` returns.  Fields whose
Python value can be `None` (a present-but-null column reached through
`dict.get`) are `Option String`; all others are plain strings. -/
structure TemplateData where
  seeker_name : String
  provider_name : String
  offering_title : String
  offering_type : String
  cover_image_url : Option String
  event_date : String
  event_time : String
  duration : String
  location_name : Option String
  location_address : Option String
  directions_url : String
  map_url : String
  calendar_link : String
  booking_id : String
  booking_reference : String
  base_price : String
  service_fee : String
  total_amount : String
  payment_method : String
  payment_date : String
  amount_cents : Int
  currency : String
  cancellation_policy : String
  booking_detail_link : String
  contact_provider_link : String
  preferences_link : String
  deriving DecidableEq

/-- The offering looked up by the builder (the empty dict, modelled as
`none`, when the booking's `offering_id` is falsy). -/
def resolvedOffering (db : Db) (booking : Booking) : Option Offering :=
  if booking.offering_id ≠ "" then _get_offering db booking.offering_id else none

/-- The location resolved by the builder (the empty dict when the booking's
`offering_id` is falsy). -/
def resolvedLocation (db : Db) (booking : Booking) : Option LocRow :=
  if booking.offering_id ≠ "" then
    _get_location db (resolvedOffering db booking) booking.offering_id
  else none

/-- Python `_build_template_data`. -/
def _build_template_data (settings : Settings) (parse : ParseFn) (db : Db)
    (booking : Booking) : TemplateData :=
  let booking_id := booking.id
  let offering := resolvedOffering db booking
  let location := resolvedLocation db booking
  let start_str := booking.offering_start_datetime
  let end_str := booking.offering_end_datetime
  let amount_cents := booking.amount_cents
  let currency := booking.currency
  let loc_name : Option String :=
    match location with
    | none => some ("")
    | some l => l.name
  let loc_address : Option String :=
    match location with
    | none => some ("")
    | some l => l.address_formatted
  let lat := location.bind (fun l => l.latitude)
  let lng := location.bind (fun l => l.longitude)
  let directions_url := _make_directions_url lat lng loc_address
  let calendar_link :=
    _make_calendar_link parse booking.offering_title start_str end_str
      (pyOrOpt loc_address loc_name)
  let app_url := settings.NAVARII_APP_URL
  let booked_at := booking.booked_at
  let payment_date := if booked_at ≠ "" then _format_short_date parse booked_at else ""
  { seeker_name := _get_seeker_name db booking
    provider_name := _get_provider_name db booking
    offering_title := booking.offering_title
    offering_type :=
      (pyOr (offering.bind (fun o => o.offering_type)) ("session")).replace ("_") (" ")
    cover_image_url :=
      match offering with
      | none => some ("")
      | some o => o.image_url
    event_date := if start_str ≠ "" then _format_date parse start_str else ""
    event_time :=
      if start_str ≠ "" ∧ end_str ≠ "" then _format_time_range parse start_str end_str
      else ""
    duration :=
      if start_str ≠ "" ∧ end_str ≠ "" then _format_duration parse start_str end_str
      else ""
    location_name := loc_name
    location_address := loc_address
    directions_url := directions_url
    map_url := ""
    calendar_link := calendar_link
    booking_id := booking_id
    booking_reference := pyUpper (pyTake 8 booking_id)
    base_price := _format_currency amount_cents currency
    service_fee := _format_currency 0 currency
    total_amount := _format_currency amount_cents currency
    payment_method := "Card"
    payment_date := payment_date
    amount_cents := amount_cents
    currency := currency
    cancellation_policy :=
      "Full refund if cancelled more than 48 hours before the experience. "
        ++ "50% refund within 24–48 hours. No refund within 24 hours."
    booking_detail_link :=
      if app_url ≠ "" then app_url ++ "/bookings/" ++ booking_id else ""
    contact_provider_link :=
      if app_url ≠ "" then app_url ++ "/bookings/" ++ booking_id ++ "/contact" else ""
    preferences_link :=
      if app_url ≠ "" then app_url ++ "/settings/notifications" else "" }

/-! Email adapter: `SendGridAdapter.send_template_email`,
sendgrid_adapter.py lines 18-45. -/

/-- The provider's HTTP response to `client.send`: status code, body, and
response headers. -/
structure SGResponse where
  status_code : Nat
  body : String
  headers : List (String × String)
  deriving DecidableEq

/-- Python `send_template_email`, as a function of the provider's response:
raises a runtime error carrying the status code and body on status at
least 400, otherwise returns the message-id response header (empty when
the header is absent). -/
def send_template_email (response : SGResponse) : Except String String :=
  if 400 ≤ response.status_code then
    Except.error ("SendGrid error " ++ toString response.status_code ++ ": " ++ response.body)
  else
    Except.ok ((response.headers.lookup ("X-Message-Id")).getD (""))

/-! Job handlers, main.py lines 325-526. -/

/-- The environment of one handler invocation: configuration, the database
snapshot, the CPython parse behaviour, the provider's response to the send
this invocation would perform, whether the `notification_deliveries` insert
raises, and the current time (an isoformat timestamp, never the empty
string). -/
structure Env where
  settings : Settings
  db : Db
  parse : ParseFn
  response : SGResponse
  insertFails : Bool
  now : String

/-- An external side effect a handler commits. -/
inductive Effect where
  | emailCall (to_email template_id : String)
  | bookingUpdate (booking_id field value : String)
  | deliveryInsert (booking_id : String) (user_id : Option String)
      (template_key destination status : String)
  deriving DecidableEq

/-- Whether an effect is a delivery-record insert. -/
def Effect.isDeliveryInsert : Effect → Bool
  | .deliveryInsert _ _ _ _ _ => true
  | _ => false

/-- The result of one handler invocation: the outcome (normal return or a
raised error), the committed side effects in order, and the database state
afterwards. -/
structure HandlerResult where
  outcome : Except String Unit
  effects : List Effect
  db : Db

/-- The fallible `notification_deliveries` insert inside `_log_delivery`. -/
def insertDelivery (env : Env) (booking_id : String) (user_id : Option String)
    (template_key destination status : String) : Except String Effect :=
  if env.insertFails then Except.error ("insert failed")
  else Except.ok (Effect.deliveryInsert booking_id user_id template_key destination status)

/-- Python `_log_delivery`: best-effort insert; an exception is caught and
only logged (`logger.warning`), so the writer always returns normally. -/
def _log_delivery (env : Env) (booking_id : String) (user_id : Option String)
    (template_key destination status : String) : List Effect :=
  match insertDelivery env booking_id user_id template_key destination status with
  | Except.ok e => [e]
  | Except.error _ => []

/-- The `bookings` table update keyed on the booking id. -/
def updateBookings (db : Db) (booking_id : String) (f : Booking → Booking) : Db :=
  { db with bookings := db.bookings.map (fun b => if b.id == booking_id then f b else b) }

/-- Python `send_booking_confirmation`, main.py lines 358-401. -/
def send_booking_confirmation (env : Env) (booking_id : String) : HandlerResult :=
  if ¬ env.settings.NOTIFICATIONS_ENABLED then ⟨Except.ok (), [], env.db⟩
  else
    match _get_booking env.db booking_id with
    | none => ⟨Except.ok (), [], env.db⟩
    | some booking =>
      if truthyS booking.confirmation_sent_at then ⟨Except.ok (), [], env.db⟩
      else if ["cancelled", "refunded", "failed"].contains booking.status then
        ⟨Except.ok (), [], env.db⟩
      else
        match _get_seeker_email env.db booking with
        | none => ⟨Except.ok (), [], env.db⟩
        | some email =>
          let _template_data := _build_template_data env.settings env.parse env.db booking
          match send_template_email env.response with
          | Except.error e =>
            ⟨Except.error e,
             [Effect.emailCall email env.settings.SENDGRID_CONFIRMATION_TEMPLATE_ID], env.db⟩
          | Except.ok _msgId =>
            let db1 := updateBookings env.db booking_id
              (fun b => { b with confirmation_sent_at := some env.now })
            let user_id := _get_seeker_user_id env.db booking
            ⟨Except.ok (),
             [Effect.emailCall email env.settings.SENDGRID_CONFIRMATION_TEMPLATE_ID,
              Effect.bookingUpdate booking_id ("confirmation_sent_at") env.now]
               ++ _log_delivery env booking_id user_id ("booking_confirmation") email ("sent"),
             db1⟩

/-- Python `send_booking_cancellation`, main.py lines 404-440: no
idempotency marker and no status gate; adds the actor and refund fields to
the template data before sending. -/
def send_booking_cancellation (env : Env) (booking_id : String)
    (cancelled_by : String) : HandlerResult :=
  if ¬ env.settings.NOTIFICATIONS_ENABLED then ⟨Except.ok (), [], env.db⟩
  else
    match _get_booking env.db booking_id with
    | none => ⟨Except.ok (), [], env.db⟩
    | some booking =>
      match _get_seeker_email env.db booking with
      | none => ⟨Except.ok (), [], env.db⟩
      | some email =>
        let _template_data := _build_template_data env.settings env.parse env.db booking
        let _cancelled_by := cancelled_by
        let _refund_amount := _format_currency booking.refund_amount_cents booking.currency
        match send_template_email env.response with
        | Except.error e =>
          ⟨Except.error e,
           [Effect.emailCall email env.settings.SENDGRID_CANCELLATION_TEMPLATE_ID], env.db⟩
        | Except.ok _msgId =>
          let user_id := _get_seeker_user_id env.db booking
          ⟨Except.ok (),
           [Effect.emailCall email env.settings.SENDGRID_CANCELLATION_TEMPLATE_ID]
             ++ _log_delivery env booking_id user_id ("booking_cancellation") email ("sent"),
           env.db⟩

/-- Python `send_reminder_notification`, main.py lines 443-483. -/
def send_reminder_notification (env : Env) (booking_id : String) : HandlerResult :=
  if ¬ env.settings.NOTIFICATIONS_ENABLED then ⟨Except.ok (), [], env.db⟩
  else
    match _get_booking env.db booking_id with
    | none => ⟨Except.ok (), [], env.db⟩
    | some booking =>
      if truthyS booking.reminder_sent_at then ⟨Except.ok (), [], env.db⟩
      else if ¬ ["confirmed", "pending_payout"].contains booking.status then
        ⟨Except.ok (), [], env.db⟩
      else
        match _get_seeker_email env.db booking with
        | none => ⟨Except.ok (), [], env.db⟩
        | some email =>
          let _template_data := _build_template_data env.settings env.parse env.db booking
          match send_template_email env.response with
          | Except.error e =>
            ⟨Except.error e,
             [Effect.emailCall email env.settings.SENDGRID_REMINDER_TEMPLATE_ID], env.db⟩
          | Except.ok _msgId =>
            let db1 := updateBookings env.db booking_id
              (fun b => { b with reminder_sent_at := some env.now })
            let user_id := _get_seeker_user_id env.db booking
            ⟨Except.ok (),
             [Effect.emailCall email env.settings.SENDGRID_REMINDER_TEMPLATE_ID,
              Effect.bookingUpdate booking_id ("reminder_sent_at") env.now]
               ++ _log_delivery env booking_id user_id ("booking_reminder") email ("sent"),
             db1⟩

/-- Python `send_followup_notification`, main.py lines 486-526. -/
def send_followup_notification (env : Env) (booking_id : String) : HandlerResult :=
  if ¬ env.settings.NOTIFICATIONS_ENABLED then ⟨Except.ok (), [], env.db⟩
  else
    match _get_booking env.db booking_id with
    | none => ⟨Except.ok (), [], env.db⟩
    | some booking =>
      if truthyS booking.followup_sent_at then ⟨Except.ok (), [], env.db⟩
      else if ["cancelled", "refunded", "failed"].contains booking.status then
        ⟨Except.ok (), [], env.db⟩
      else
        match _get_seeker_email env.db booking with
        | none => ⟨Except.ok (), [], env.db⟩
        | some email =>
          let _template_data := _build_template_data env.settings env.parse env.db booking
          match send_template_email env.response with
          | Except.error e =>
            ⟨Except.error e,
             [Effect.emailCall email env.settings.SENDGRID_FOLLOWUP_TEMPLATE_ID], env.db⟩
          | Except.ok _msgId =>
            let db1 := updateBookings env.db booking_id
              (fun b => { b with followup_sent_at := some env.now })
            let user_id := _get_seeker_user_id env.db booking
            ⟨Except.ok (),
             [Effect.emailCall email env.settings.SENDGRID_FOLLOWUP_TEMPLATE_ID,
              Effect.bookingUpdate booking_id ("followup_sent_at") env.now]
               ++ _log_delivery env booking_id user_id ("booking_followup") email ("sent"),
             db1⟩

/-! Properties saying a run with a failing delivery-log insert matches the
run with a working insert everywhere except the delivery record itself. -/

/-- A handler run in which the delivery-log insert raises has the same
outcome and final database as the run in which it succeeds, commits the
same effects minus the delivery record, and returns normally whenever the
provider accepted the send. -/
def insertFailHarmless (run : Env → HandlerResult) (env : Env) : Prop :=
  let rT := run { env with insertFails := true }
  let rF := run { env with insertFails := false }
  rT.outcome = rF.outcome ∧ rT.db = rF.db ∧
    rT.effects = rF.effects.filter (fun e => !e.isDeliveryInsert) ∧
    (env.response.status_code < 400 → rT.outcome = Except.ok ())

/-! Helper lemmas. -/

/-- Finding after mapping an update that only touches matching elements and
preserves the predicate: the first match is the updated first match. -/
theorem find?_map_invariant {α : Type} (p : α → Bool) (f : α → α)
    (hp : ∀ a, p (f a) = p a) (l : List α) :
    (l.map (fun a => if p a then f a else a)).find? p = (l.find? p).map f := by
  induction l with
  | nil => rfl
  | cons a l ih =>
    by_cases h : p a = true
    · simp only [List.map_cons, if_pos h]
      rw [List.find?_cons_of_pos _ ((hp a).trans h), List.find?_cons_of_pos _ h]
      rfl
    · simp only [List.map_cons, if_neg h]
      rw [List.find?_cons_of_neg _ h, List.find?_cons_of_neg _ h]
      exact ih

/-- Looking a booking up after an id-preserving update yields the updated
booking. -/
theorem get_booking_update (db : Db) (bid : String) (f : Booking → Booking)
    (hf : ∀ b, (f b).id = b.id) :
    _get_booking (updateBookings db bid f) bid = (_get_booking db bid).map f := by
  simp only [_get_booking, updateBookings]
  exact find?_map_invariant (fun b => b.id == bid) f
    (fun b => by show ((f b).id == bid) = (b.id == bid); rw [hf]) db.bookings

/-- The two-digit padding really is two digits for inputs below 100. -/
theorem pad2_length (n : Nat) (h : n < 100) : (pad2 n).length = 2 :=
  (by decide : ∀ i : Fin 100, (pad2 i.val).length = 2) ⟨n, h⟩

/-- The confirmation handler's delivery-log insert does not influence
anything but the delivery record. -/
theorem confirm_log_indep (env : Env) (booking_id : String) :
    insertFailHarmless (fun e => send_booking_confirmation e booking_id) env := by
  unfold insertFailHarmless send_booking_confirmation
  by_cases hS : 400 ≤ env.response.status_code <;>
    simp only [send_template_email, hS, if_true, if_false, ite_true, ite_false] <;>
    repeat' split <;>
    try simp_all [_log_delivery, insertDelivery, List.filter, Effect.isDeliveryInsert]

/-- The cancellation handler's delivery-log insert does not influence
anything but the delivery record. -/
theorem cancel_log_indep (env : Env) (booking_id cancelled_by : String) :
    insertFailHarmless (fun e => send_booking_cancellation e booking_id cancelled_by) env := by
  unfold insertFailHarmless send_booking_cancellation
  by_cases hS : 400 ≤ env.response.status_code <;>
    simp only [send_template_email, hS, if_true, if_false, ite_true, ite_false] <;>
    repeat' split <;>
    try simp_all [_log_delivery, insertDelivery, List.filter, Effect.isDeliveryInsert]

/-- The reminder handler's delivery-log insert does not influence anything
but the delivery record. -/
theorem reminder_log_indep (env : Env) (booking_id : String) :
    insertFailHarmless (fun e => send_reminder_notification e booking_id) env := by
  unfold insertFailHarmless send_reminder_notification
  by_cases hS : 400 ≤ env.response.status_code <;>
    simp only [send_template_email, hS, if_true, if_false, ite_true, ite_false] <;>
    repeat' split <;>
    try simp_all [_log_delivery, insertDelivery, List.filter, Effect.isDeliveryInsert]

/-- The follow-up handler's delivery-log insert does not influence anything
but the delivery record. -/
theorem followup_log_indep (env : Env) (booking_id : String) :
    insertFailHarmless (fun e => send_followup_notification e booking_id) env := by
  unfold insertFailHarmless send_followup_notification
  by_cases hS : 400 ≤ env.response.status_code <;>
    simp only [send_template_email, hS, if_true, if_false, ite_true, ite_false] <;>
    repeat' split <;>
    try simp_all [_log_delivery, insertDelivery, List.filter, Effect.isDeliveryInsert]

/-! Witness fixtures: a minimal database in which the confirmation path
runs end to end, and small variations for the other claims. -/

/-- Fixture booking: status confirmed, no markers set, no offering. -/
def bookingW : Booking :=
  ⟨"b1a2c3d4-5678", "SP1", "PP1", "", "confirmed", 1050, "USD", 0, "Yoga", "", "", "",
    none, none, none⟩

/-- Fixture database: the booking plus the seeker's profile chain. -/
def dbW : Db :=
  ⟨[bookingW], [⟨"SP1", "U1"⟩], [⟨"U1", some ("u@example.com"), some ("Ann")⟩],
    [], [], [], []⟩

/-- Fixture settings with notifications enabled. -/
def settingsW : Settings := ⟨true, "", "tpl-confirm", "tpl-cancel", "tpl-remind", "tpl-follow"⟩

/-- Fixture provider response: accepted with a message id. -/
def respOkW : SGResponse := ⟨202, "", [("X-Message-Id", "msg-1")]⟩

/-- Fixture environment for a successful send. -/
def envW : Env := ⟨settingsW, dbW, fun _ => none, respOkW, false, "2026-02-22T00:00:00+00:00"⟩

/-- Fixture environment after the first confirmation invocation. -/
def envW2 : Env := { envW with db := (send_booking_confirmation envW ("b1a2c3d4-5678")).db }

/-! The claims. -/

/-- C1: After a confirmation invocation that sends successfully (witnessed
by the marker-update effect it commits, which the handler performs only
after a successful send), the stored booking's `confirmation_sent_at` is
set, and a second invocation against the resulting database is a pure
no-op: it returns normally with no email call, no booking update and no
delivery-record insert, leaving the database unchanged.  The hypothesis on
`env.now` reflects that an isoformat timestamp is never the empty
string. -/
theorem confirmation_idempotent (env env' : Env) (bid : String)
    (hnow : env.now ≠ "")
    (hsent : Effect.bookingUpdate bid ("confirmation_sent_at") env.now
      ∈ (send_booking_confirmation env bid).effects)
    (hdb : env'.db = (send_booking_confirmation env bid).db) :
    (∃ b, _get_booking env'.db bid = some b ∧ b.confirmation_sent_at = some env.now) ∧
    send_booking_confirmation env' bid = ⟨Except.ok (), [], env'.db⟩ := by
  by_cases hN : env.settings.NOTIFICATIONS_ENABLED
  case neg => simp [send_booking_confirmation, hN] at hsent
  simp only [send_booking_confirmation, hN, not_true, ite_false, if_neg] at hsent hdb
  cases hB : _get_booking env.db bid with
  | none => rw [hB] at hsent; simp at hsent
  | some b =>
    rw [hB] at hsent hdb
    dsimp only at hsent hdb
    by_cases hM : truthyS b.confirmation_sent_at = true
    · rw [if_pos hM] at hsent; simp at hsent
    · rw [if_neg hM] at hsent hdb
      by_cases hG : (["cancelled", "refunded", "failed"].contains b.status) = true
      · rw [if_pos hG] at hsent; simp at hsent
      · rw [if_neg hG] at hsent hdb
        cases hE : _get_seeker_email env.db b with
        | none => rw [hE] at hsent; simp at hsent
        | some email =>
          rw [hE] at hsent hdb
          dsimp only at hsent hdb
          cases hS : send_template_email env.response with
          | error e => rw [hS] at hsent; simp at hsent
          | ok m =>
            rw [hS] at hdb
            simp only at hdb
            have hget : _get_booking env'.db bid =
                some { b with confirmation_sent_at := some env.now } := by
              rw [hdb, get_booking_update env.db bid
                (fun x => { x with confirmation_sent_at := some env.now }) (fun _ => rfl), hB]
              rfl
            refine ⟨⟨_, hget, rfl⟩, ?_⟩
            by_cases hN' : env'.settings.NOTIFICATIONS_ENABLED
            · simp only [send_booking_confirmation, hN', not_true, ite_false, if_neg, hget]
              have htr : truthyS (some env.now) = true := by
                simp [truthyS, hnow]
              rw [if_pos htr]
            · simp [send_booking_confirmation, hN']

/-- C1 witness: in the fixture environment the first confirmation call
commits the marker update, and the second call on the resulting database is
the exact no-op result. -/
theorem confirmation_idempotent_witness :
    envW.now ≠ "" ∧
    Effect.bookingUpdate ("b1a2c3d4-5678") ("confirmation_sent_at") envW.now
      ∈ (send_booking_confirmation envW ("b1a2c3d4-5678")).effects ∧
    (∃ b, _get_booking envW2.db ("b1a2c3d4-5678") = some b ∧
        b.confirmation_sent_at = some envW.now) ∧
    send_booking_confirmation envW2 ("b1a2c3d4-5678") = ⟨Except.ok (), [], envW2.db⟩ := by
  have h := confirmation_idempotent envW envW2 ("b1a2c3d4-5678") (by decide) (by decide) rfl
  exact ⟨by decide, by decide, h.1, h.2⟩

/-- C2: the email adapter raises exactly on provider status at least 400
(the code's notion of non-success), and the raised error message carries
the provider's status code and response body verbatim; on any success
status it returns the provider-issued message identifier taken from the
response headers (the empty string when the header is absent). -/
theorem send_template_email_spec (response : SGResponse) :
    (400 ≤ response.status_code →
      send_template_email response = Except.error
        ("SendGrid error " ++ toString response.status_code ++ ": " ++ response.body)) ∧
    (response.status_code < 400 →
      send_template_email response =
        Except.ok ((response.headers.lookup ("X-Message-Id")).getD (""))) := by
  constructor
  · intro h
    simp [send_template_email, h]
  · intro h
    rw [send_template_email, if_neg (by omega)]

/-- C2 witness: a 403 response raises with the code and body in the
message; a 202 response returns the message-id header. -/
theorem send_template_email_spec_witness :
    send_template_email ⟨403, "Forbidden", []⟩
        = Except.error ("SendGrid error 403: Forbidden") ∧
    send_template_email respOkW = Except.ok ("msg-1") :=
  ⟨((send_template_email_spec ⟨403, "Forbidden", []⟩).1 (by decide)).trans
      (congrArg Except.error (by decide)),
   ((send_template_email_spec respOkW).2 (by decide)).trans
      (congrArg Except.ok (by decide))⟩

/-- C3 counterexample: the claim that the offering-specific location is
used only when no fixed location id is set fails on a dangling fixed id —
here the offering carries `provider_location_id = "L1"`, the
`provider_locations` table has no such row, and `_get_location`
nevertheless returns the offering-specific location. -/
def olC3 : OfferingLocation := ⟨"O1", 0, some ("Stop Venue"), some ("9 Stop St"), none, none⟩

/-- C3 counterexample offering with a dangling fixed location id. -/
def offC3 : Offering := ⟨"O1", none, none, some ("L1")⟩

/-- C3 counterexample database: no provider locations, one offering
location. -/
def dbC3 : Db := ⟨[], [], [], [], [offC3], [], [olC3]⟩

/-- C3 counterexample: a set (but dangling) fixed location id with the
offering-specific location nevertheless used. -/
theorem location_fallback_counterexample :
    offC3.provider_location_id = some ("L1") ∧
    dbC3.provider_locations = [] ∧
    _get_location dbC3 (some offC3) ("O1") = some (olToLocRow olC3) :=
  ⟨rfl, rfl, by decide⟩

/-- C3 (amended): the provider fixed location takes precedence whenever its
id is set (truthy) and its row exists; the offering-specific location
(first by stop order) is used when no truthy fixed location id is set, and
also when the fixed id is set but its row lookup finds nothing; when both
sources are absent, the template data's location name, address and derived
links (directions and map) are all the empty string, not null and not an
error. -/
theorem location_fallback_amended :
    (∀ (db : Db) (off : Offering) (oid lid : String) (row : ProviderLocation),
      off.provider_location_id = some lid → lid ≠ "" →
      db.provider_locations.find? (fun r => r.id == lid) = some row →
      _get_location db (some off) oid =
        some ⟨row.name, row.address_formatted, row.latitude, row.longitude⟩) ∧
    (∀ (db : Db) (off : Option Offering) (oid : String),
      truthyS (off.bind (fun o => o.provider_location_id)) = false →
      _get_location db off oid = (firstOfferingLocation db oid).map olToLocRow) ∧
    (∀ (db : Db) (off : Offering) (oid lid : String),
      off.provider_location_id = some lid →
      db.provider_locations.find? (fun r => r.id == lid) = none →
      _get_location db (some off) oid = (firstOfferingLocation db oid).map olToLocRow) ∧
    (∀ (settings : Settings) (parse : ParseFn) (db : Db) (booking : Booking),
      resolvedLocation db booking = none →
      (_build_template_data settings parse db booking).location_name = some ("") ∧
      (_build_template_data settings parse db booking).location_address = some ("") ∧
      (_build_template_data settings parse db booking).directions_url = "" ∧
      (_build_template_data settings parse db booking).map_url = "") := by
  refine ⟨?_, ?_, ?_, ?_⟩
  · intro db off oid lid row h1 h2 h3
    simp only [_get_location, Option.some_bind, h1]
    rw [if_pos (by simp [truthyS, h2])]
    simp [h3]
  · intro db off oid h
    simp only [_get_location, h]
    rw [if_neg (by simp [h])]
    cases hf : firstOfferingLocation db oid <;> simp [hf]
  · intro db off oid lid h1 h2
    simp only [_get_location, Option.some_bind, h1]
    by_cases ht : truthyS (some lid) = true
    · rw [if_pos ht]
      simp only [Option.getD_some, h2]
      cases hf : firstOfferingLocation db oid <;> simp [hf]
    · rw [if_neg ht]
      cases hf : firstOfferingLocation db oid <;> simp [hf]
  · intro settings parse db booking h
    refine ⟨?_, ?_, ?_, ?_⟩ <;>
      simp [_build_template_data, h, _make_directions_url, truthyQ, truthyS]

/-- C3 fixture: an existing provider location row for the precedence
branch. -/
def plFix : ProviderLocation := ⟨"L1", some ("Studio"), some ("1 Main St"), none, none⟩

/-- C3 fixture offering pointing at the existing provider location. -/
def offFix : Offering := ⟨"O1", none, none, some ("L1")⟩

/-- C3 fixture database for the precedence branch. -/
def dbFix : Db := ⟨[], [], [], [], [offFix], [plFix], []⟩

/-- C3 witness: all four branches of the amended statement at concrete
inputs — fixed-location precedence, no fixed id, dangling fixed id, and the
both-absent empty-string case. -/
theorem location_fallback_amended_witness :
    _get_location dbFix (some offFix) ("O1")
        = some ⟨plFix.name, plFix.address_formatted, plFix.latitude, plFix.longitude⟩ ∧
    _get_location dbFix none ("O1") = (firstOfferingLocation dbFix ("O1")).map olToLocRow ∧
    _get_location dbC3 (some offC3) ("O1")
        = (firstOfferingLocation dbC3 ("O1")).map olToLocRow ∧
    ((_build_template_data settingsW (fun _ => none) dbW bookingW).location_name = some ("") ∧
     (_build_template_data settingsW (fun _ => none) dbW bookingW).location_address = some ("") ∧
     (_build_template_data settingsW (fun _ => none) dbW bookingW).directions_url = "" ∧
     (_build_template_data settingsW (fun _ => none) dbW bookingW).map_url = "") :=
  ⟨location_fallback_amended.1 dbFix offFix ("O1") ("L1") plFix rfl (by decide) (by decide),
   location_fallback_amended.2.1 dbFix none ("O1") (by decide),
   location_fallback_amended.2.2.1 dbC3 offC3 ("O1") ("L1") rfl (by decide),
   location_fallback_amended.2.2.2 settingsW (fun _ => none) dbW bookingW (by decide)⟩

/-- C4: for each of the four job handlers, a raising delivery-record insert
is caught inside the log writer: the run with the failing insert has the
same outcome and the same final database as the run with a working insert,
commits exactly the same effects minus the delivery record, and returns
normally whenever the provider accepted the email send. -/
theorem delivery_log_failure_harmless (env : Env) (booking_id cancelled_by : String) :
    insertFailHarmless (fun e => send_booking_confirmation e booking_id) env ∧
    insertFailHarmless (fun e => send_booking_cancellation e booking_id cancelled_by) env ∧
    insertFailHarmless (fun e => send_reminder_notification e booking_id) env ∧
    insertFailHarmless (fun e => send_followup_notification e booking_id) env :=
  ⟨confirm_log_indep env booking_id, cancel_log_indep env booking_id cancelled_by,
   reminder_log_indep env booking_id, followup_log_indep env booking_id⟩

/-- C4 witness: in the fixture environment with a failing insert, each of
the four handlers still returns normally. -/
theorem delivery_log_failure_harmless_witness :
    (send_booking_confirmation { envW with insertFails := true } ("b1a2c3d4-5678")).outcome
        = Except.ok () ∧
    (send_booking_cancellation { envW with insertFails := true } ("b1a2c3d4-5678")
        ("provider")).outcome = Except.ok () ∧
    (send_reminder_notification { envW with insertFails := true } ("b1a2c3d4-5678")).outcome
        = Except.ok () ∧
    (send_followup_notification { envW with insertFails := true } ("b1a2c3d4-5678")).outcome
        = Except.ok () := by
  obtain ⟨h1, h2, h3, h4⟩ :=
    delivery_log_failure_harmless envW ("b1a2c3d4-5678") ("provider")
  exact ⟨h1.2.2.2 (by decide), h2.2.2.2 (by decide), h3.2.2.2 (by decide),
    h4.2.2.2 (by decide)⟩

/-- C5: for a stored booking whose status fails the handler's status gate,
the handler is a silent no-op — normal return, no effects, database
unchanged: the reminder handler whenever the status is neither confirmed
nor pending_payout (in particular for a cancelled booking), and the
confirmation handler whenever the status is cancelled, refunded or failed
(in particular for a refunded booking). -/
theorem status_gate_noop (env : Env) (bid : String) (b : Booking)
    (hb : _get_booking env.db bid = some b) :
    (b.status ∉ (["confirmed", "pending_payout"] : List String) →
      send_reminder_notification env bid = ⟨Except.ok (), [], env.db⟩) ∧
    (b.status ∈ (["cancelled", "refunded", "failed"] : List String) →
      send_booking_confirmation env bid = ⟨Except.ok (), [], env.db⟩) := by
  constructor
  · intro hs
    have hc : (["confirmed", "pending_payout"].contains b.status) = false := by
      simpa using hs
    by_cases hN : env.settings.NOTIFICATIONS_ENABLED
    · simp only [send_reminder_notification, hN, not_true, ite_false, if_neg, hb]
      by_cases hM : truthyS b.reminder_sent_at = true
      · rw [if_pos hM]
      · rw [if_neg hM, if_pos (by rw [hc]; exact Bool.false_ne_true)]
    · simp [send_reminder_notification, hN]
  · intro hs
    have hc : (["cancelled", "refunded", "failed"].contains b.status) = true := by
      simpa using hs
    by_cases hN : env.settings.NOTIFICATIONS_ENABLED
    · simp only [send_booking_confirmation, hN, not_true, ite_false, if_neg, hb]
      by_cases hM : truthyS b.confirmation_sent_at = true
      · rw [if_pos hM]
      · rw [if_neg hM, if_pos hc]
    · simp [send_booking_confirmation, hN]

/-- C5 fixture booking with a cancelled status (reminder gate). -/
def bookingGateR : Booking := { bookingW with id := "B2", status := "cancelled" }

/-- C5 fixture booking with a refunded status (confirmation gate). -/
def bookingGateC : Booking := { bookingW with id := "B3", status := "refunded" }

/-- C5 fixture environment holding both gated bookings. -/
def envGate : Env := { envW with db := { dbW with bookings := [bookingGateR, bookingGateC] } }

/-- C5 witness: the reminder handler on the cancelled booking and the
confirmation handler on the refunded booking are both exact no-ops. -/
theorem status_gate_noop_witness :
    send_reminder_notification envGate ("B2") = ⟨Except.ok (), [], envGate.db⟩ ∧
    send_booking_confirmation envGate ("B3") = ⟨Except.ok (), [], envGate.db⟩ :=
  ⟨(status_gate_noop envGate ("B2") bookingGateR (by decide)).1 (by decide),
   (status_gate_noop envGate ("B3") bookingGateC (by decide)).2 (by decide)⟩

/-- C6: currency formatting is a pure function of the pair of integer
minor-units and currency code (equal inputs give equal outputs); the
symbol table maps USD, EUR and GBP to their symbols and every other
upper-cased code to the dollar sign; the output is the symbol followed by
the amount with exactly two decimal places; and the three documented
examples hold. -/
theorem currency_format_spec :
    (∀ (c c' : Int) (cur cur' : String), c = c' → cur = cur' →
      _format_currency c cur = _format_currency c' cur') ∧
    (∀ c : Int, (∃ r, _format_currency c ("USD") = "$" ++ r) ∧
      (∃ r, _format_currency c ("EUR") = "€" ++ r) ∧
      (∃ r, _format_currency c ("GBP") = "£" ++ r)) ∧
    (∀ cur : String, pyUpper cur ≠ "USD" → pyUpper cur ≠ "EUR" → pyUpper cur ≠ "GBP" →
      ∀ c : Int, ∃ r, _format_currency c cur = "$" ++ r) ∧
    (∀ (c : Nat) (cur : String), ∃ sym frac, _format_currency (c : Int) cur =
      sym ++ toString (c / 100) ++ "." ++ frac ∧ frac.length = 2) ∧
    _format_currency 1050 ("USD") = "$10.50" ∧
    _format_currency 999 ("EUR") = "€9.99" ∧
    _format_currency 500 ("XXX") = "$5.00" := by
  refine ⟨?_, ?_, ?_, ?_, by decide, by decide, by decide⟩
  · intro c c' cur cur' h1 h2
    rw [h1, h2]
  · intro c
    refine ⟨⟨twoDec c, ?_⟩, ⟨twoDec c, ?_⟩, ⟨twoDec c, ?_⟩⟩ <;>
      simp [_format_currency, (by decide : pyUpper ("USD") = "USD"),
        (by decide : pyUpper ("EUR") = "EUR"), (by decide : pyUpper ("GBP") = "GBP"),
        List.lookup]
  · intro cur h1 h2 h3 c
    refine ⟨twoDec c, ?_⟩
    have b1 : (pyUpper cur == "USD") = false := beq_eq_false_iff_ne.mpr h1
    have b2 : (pyUpper cur == "EUR") = false := beq_eq_false_iff_ne.mpr h2
    have b3 : (pyUpper cur == "GBP") = false := beq_eq_false_iff_ne.mpr h3
    simp [_format_currency, List.lookup, b1, b2, b3]
  · intro c cur
    refine ⟨(([("USD", "$"), ("EUR", "€"), ("GBP", "£")].lookup (pyUpper cur)).getD ("$")),
      pad2 (c % 100), ?_, pad2_length _ (Nat.mod_lt _ (by omega))⟩
    have hnn : ¬ ((c : Int) < 0) := by omega
    simp [_format_currency, twoDec, hnn, centsTwoDec, Int.toNat_ofNat,
      String.append_assoc]

/-- C6 witness: the unknown-code and two-decimal-shape branches at concrete
inputs. -/
theorem currency_format_spec_witness :
    (∃ r, _format_currency 7 ("xyz") = "$" ++ r) ∧
    (∃ sym frac, _format_currency ((1050 : ℕ) : ℤ) ("USD")
        = sym ++ toString ((1050 : ℕ) / 100) ++ "." ++ frac ∧ frac.length = 2) :=
  ⟨currency_format_spec.2.2.1 ("xyz") (by decide) (by decide) (by decide) 7,
   currency_format_spec.2.2.2.1 1050 ("USD")⟩

/-- C7 counterexample start datetime. -/
def dtC7s : DT := ⟨2026, 1, 1, 10, 0, 0, 0⟩

/-- C7 counterexample end datetime, 90 seconds later. -/
def dtC7e : DT := ⟨2026, 1, 1, 10, 1, 30, 0⟩

/-- C7 counterexample parse behaviour for the two timestamps. -/
def pC7 : ParseFn := fun s =>
  if s = "2026-01-01T10:00:00" then some dtC7s
  else if s = "2026-01-01T10:01:30" then some dtC7e
  else none

/-- C7 counterexample: a valid pair with the end 90 seconds (1.5 minutes)
after the start renders as one minute, so the string's implied minutes (1,
i.e. 60 seconds) do not equal the difference exactly — `int` truncation
drops the fractional minute. -/
theorem duration_exactness_counterexample :
    pC7 ("2026-01-01T10:00:00") = some dtC7s ∧
    pC7 ("2026-01-01T10:01:30") = some dtC7e ∧
    dtC7s.totalSeconds < dtC7e.totalSeconds ∧
    dtC7e.totalSeconds - dtC7s.totalSeconds = 90 ∧
    _format_duration pC7 ("2026-01-01T10:00:00") ("2026-01-01T10:01:30") = "1min" ∧
    (1 : ℤ) * 60 ≠ 90 :=
  ⟨by decide, by decide, by decide, by decide, by decide, by decide⟩

/-- C7 (amended): for every valid pair with the end strictly after the
start, the rendered minute count is the floor of the difference in minutes
(the two bound conjuncts), the string takes the documented shape — minutes
only below one hour, hours only when the minute remainder is zero, hours
and minutes otherwise — and the hour/minute decomposition recombines
exactly. -/
theorem duration_format_amended (parse : ParseFn) (s e : String) (ds de : DT)
    (hs : parse s = some ds) (he : parse e = some de)
    (hlt : ds.totalSeconds < de.totalSeconds) :
    60 * Int.tdiv (de.totalSeconds - ds.totalSeconds) 60
        ≤ de.totalSeconds - ds.totalSeconds ∧
    de.totalSeconds - ds.totalSeconds
        < 60 * (Int.tdiv (de.totalSeconds - ds.totalSeconds) 60 + 1) ∧
    (Int.tdiv (de.totalSeconds - ds.totalSeconds) 60 < 60 →
      _format_duration parse s e =
        toString (Int.tdiv (de.totalSeconds - ds.totalSeconds) 60) ++ "min") ∧
    (60 ≤ Int.tdiv (de.totalSeconds - ds.totalSeconds) 60 →
      Int.fmod (Int.tdiv (de.totalSeconds - ds.totalSeconds) 60) 60 = 0 →
      _format_duration parse s e =
        toString (Int.fdiv (Int.tdiv (de.totalSeconds - ds.totalSeconds) 60) 60) ++ "h") ∧
    (60 ≤ Int.tdiv (de.totalSeconds - ds.totalSeconds) 60 →
      Int.fmod (Int.tdiv (de.totalSeconds - ds.totalSeconds) 60) 60 ≠ 0 →
      _format_duration parse s e =
        toString (Int.fdiv (Int.tdiv (de.totalSeconds - ds.totalSeconds) 60) 60) ++ "h "
          ++ toString (Int.fmod (Int.tdiv (de.totalSeconds - ds.totalSeconds) 60) 60)
          ++ "min") ∧
    60 * Int.fdiv (Int.tdiv (de.totalSeconds - ds.totalSeconds) 60) 60
        + Int.fmod (Int.tdiv (de.totalSeconds - ds.totalSeconds) 60) 60
      = Int.tdiv (de.totalSeconds - ds.totalSeconds) 60 := by
  obtain ⟨n, hn⟩ : ∃ n : ℕ, de.totalSeconds - ds.totalSeconds = (n : ℤ) :=
    ⟨(de.totalSeconds - ds.totalSeconds).toNat, (Int.toNat_of_nonneg (by omega)).symm⟩
  have htdiv : Int.tdiv (de.totalSeconds - ds.totalSeconds) 60 = ((n / 60 : ℕ) : ℤ) := by
    rw [hn]; rfl
  have hfdiv : Int.fdiv ((n / 60 : ℕ) : ℤ) 60 = ((n / 60 / 60 : ℕ) : ℤ) := by
    exact_mod_cast (Int.ofNat_fdiv (n / 60) 60).symm
  have hfmod : Int.fmod ((n / 60 : ℕ) : ℤ) 60 = ((n / 60 % 60 : ℕ) : ℤ) := by
    exact_mod_cast (Int.ofNat_fmod (n / 60) 60).symm
  refine ⟨by rw [htdiv, hn]; omega, by rw [htdiv, hn]; omega, ?_, ?_, ?_,
    by rw [htdiv, hfdiv, hfmod]; omega⟩
  · intro h
    simp only [_format_duration, hs, he]
    rw [if_pos h]
  · intro h1 h2
    simp only [_format_duration, hs, he]
    rw [if_neg (by omega), if_neg (by simp [h2])]
  · intro h1 h2
    simp only [_format_duration, hs, he]
    rw [if_neg (by omega), if_pos h2]

/-- C7 fixture start datetime for the documented examples. -/
def dtA : DT := ⟨2026, 3, 1, 10, 0, 0, 0⟩

/-- C7 fixture end datetime 95 minutes after the start. -/
def dtB95 : DT := ⟨2026, 3, 1, 11, 35, 0, 0⟩

/-- C7 fixture end datetime 60 minutes after the start. -/
def dtB60 : DT := ⟨2026, 3, 1, 11, 0, 0, 0⟩

/-- C7 fixture end datetime 45 minutes after the start. -/
def dtB45 : DT := ⟨2026, 3, 1, 10, 45, 0, 0⟩

/-- C7 fixture parse behaviour for the example timestamps. -/
def pDur : ParseFn := fun s =>
  if s = "2026-03-01T10:00:00" then some dtA
  else if s = "2026-03-01T11:35:00" then some dtB95
  else if s = "2026-03-01T11:00:00" then some dtB60
  else if s = "2026-03-01T10:45:00" then some dtB45
  else none

/-- C7 witness: the three documented examples — 95 minutes, 60 minutes and
45 minutes — rendered through the amended theorem. -/
theorem duration_format_amended_witness :
    _format_duration pDur ("2026-03-01T10:00:00") ("2026-03-01T11:35:00") = "1h 35min" ∧
    _format_duration pDur ("2026-03-01T10:00:00") ("2026-03-01T11:00:00") = "1h" ∧
    _format_duration pDur ("2026-03-01T10:00:00") ("2026-03-01T10:45:00") = "45min" := by
  refine ⟨?_, ?_, ?_⟩
  · exact ((duration_format_amended pDur ("2026-03-01T10:00:00") ("2026-03-01T11:35:00")
      dtA dtB95 (by decide) (by decide) (by decide)).2.2.2.2.1 (by decide) (by decide)).trans
      (by decide)
  · exact ((duration_format_amended pDur ("2026-03-01T10:00:00") ("2026-03-01T11:00:00")
      dtA dtB60 (by decide) (by decide) (by decide)).2.2.2.1 (by decide) (by decide)).trans
      (by decide)
  · exact ((duration_format_amended pDur ("2026-03-01T10:00:00") ("2026-03-01T10:45:00")
      dtA dtB45 (by decide) (by decide) (by decide)).2.2.1 (by decide)).trans (by decide)

/-- C8: on an input the parser rejects, no formatter raises: the time-based
formatters (time, time range, duration — the latter for the failing input
in either position) return the empty string, and the date-based formatters
(long date, short date) echo the raw input back. -/
theorem formatter_parse_failure_spec (parse : ParseFn) (s t : String)
    (hs : parse s = none) :
    _format_time parse s = "" ∧
    (parse t = none → _format_time_range parse s t = "") ∧
    _format_duration parse s t = "" ∧
    _format_duration parse t s = "" ∧
    _format_date parse s = s ∧
    _format_short_date parse s = s := by
  refine ⟨?_, ?_, ?_, ?_, ?_, ?_⟩
  · simp [_format_time, hs]
  · intro ht
    simp [_format_time_range, _format_time, hs, ht]
  · cases h : parse t <;> simp [_format_duration, hs, h]
  · simp [_format_duration, hs]
  · simp [_format_date, hs]
  · simp [_format_short_date, hs]

/-- C8 witness: with a parser that rejects everything, all six behaviours
at concrete inputs. -/
theorem formatter_parse_failure_spec_witness :
    _format_time (fun _ => none) ("oops") = "" ∧
    _format_time_range (fun _ => none) ("oops") ("bad") = "" ∧
    _format_duration (fun _ => none) ("oops") ("bad") = "" ∧
    _format_duration (fun _ => none) ("bad") ("oops") = "" ∧
    _format_date (fun _ => none) ("oops") = "oops" ∧
    _format_short_date (fun _ => none) ("oops") = "oops" := by
  obtain ⟨h1, h2, h3, h4, h5, h6⟩ :=
    formatter_parse_failure_spec (fun _ => none) ("oops") ("bad") rfl
  exact ⟨h1, h2 rfl, h3, h4, h5, h6⟩

/-- C9: the directions builder uses the coordinate link exactly when both
coordinates are present and nonzero; when either coordinate is absent or
zero it falls back to the address link for a non-empty address and to the
empty string otherwise; and a zero latitude or longitude behaves exactly
like an absent one, so a location on the equator or prime meridian never
gets a coordinate link. -/
theorem directions_url_spec :
    (∀ (la ln : ℚ) (addr : Option String), la ≠ 0 → ln ≠ 0 →
      _make_directions_url (some la) (some ln) addr = coordinateUrl la ln) ∧
    (∀ (lat lng : Option ℚ) (a : String), ¬ (truthyQ lat = true ∧ truthyQ lng = true) →
      a ≠ "" → _make_directions_url lat lng (some a) = addressUrl a) ∧
    (∀ (lat lng : Option ℚ), ¬ (truthyQ lat = true ∧ truthyQ lng = true) →
      _make_directions_url lat lng none = "" ∧ _make_directions_url lat lng (some ("")) = "") ∧
    (∀ (lng : Option ℚ) (addr : Option String),
      _make_directions_url (some 0) lng addr = _make_directions_url none lng addr) ∧
    (∀ (lat : Option ℚ) (addr : Option String),
      _make_directions_url lat (some 0) addr = _make_directions_url lat none addr) := by
  refine ⟨?_, ?_, ?_, ?_, ?_⟩
  · intro la ln addr h1 h2
    rw [_make_directions_url, if_pos (by simp [truthyQ, h1, h2])]
    rfl
  · intro lat lng a hq ha
    rw [_make_directions_url, if_neg hq, if_pos (by simp [truthyS, ha])]
    rfl
  · intro lat lng hq
    constructor
    · rw [_make_directions_url, if_neg hq, if_neg (by simp [truthyS])]
    · rw [_make_directions_url, if_neg hq, if_neg (by simp [truthyS])]
  · intro lng addr
    simp [_make_directions_url, truthyQ]
  · intro lat addr
    simp [_make_directions_url, truthyQ]

/-- C9 witness: a genuine coordinate pair gets the coordinate link, a zero
latitude with an address gets the address link, and a zero latitude with no
address gets the empty string. -/
theorem directions_url_spec_witness :
    _make_directions_url (some 2) (some 3) none = coordinateUrl 2 3 ∧
    _make_directions_url (some 0) none (some ("1 Main St")) = addressUrl ("1 Main St") ∧
    _make_directions_url (some 0) (some 3) none = "" :=
  ⟨directions_url_spec.1 2 3 none (by norm_num) (by norm_num),
   directions_url_spec.2.1 (some 0) none ("1 Main St") (by simp [truthyQ]) (by decide),
   (directions_url_spec.2.2.1 (some 0) (some 3) (by simp [truthyQ])).1⟩

/-- C10: in every mapping the template builder returns, the total amount is
string-equal to the base price (both format the booking's cents in its
currency), the service fee is the zero amount formatted in the booking's
currency, and the booking reference is the first eight characters of the
booking id upper-cased. -/
theorem template_money_reference_invariants (settings : Settings) (parse : ParseFn)
    (db : Db) (booking : Booking) :
    (_build_template_data settings parse db booking).total_amount =
      (_build_template_data settings parse db booking).base_price ∧
    (_build_template_data settings parse db booking).base_price =
      _format_currency booking.amount_cents booking.currency ∧
    (_build_template_data settings parse db booking).service_fee =
      _format_currency 0 booking.currency ∧
    (_build_template_data settings parse db booking).booking_reference =
      pyUpper (pyTake 8 booking.id) :=
  ⟨rfl, rfl, rfl, rfl⟩
